import Mathlib

/-
Verification of the spectral calibration pipeline
(python/spectral_processor.py, class SpectralProcessor).

The pixel-level operations (image decoding, HSV masking, contour search,
corner-rectangle averaging) are abstracted into a `LoadedImage` oracle that
records, for each canonical color, the mean RGB of its detected region (or
absence), together with the mean RGB of the four corner rectangles.  Every
step downstream of that oracle (region bookkeeping, baseline, shadow
correction, reference table, correction factors, curve fitting, the
`process` orchestration) is translated directly from the source.  Machine
floats are modelled as exact rationals.
-/

namespace SpectralProcessor

/-- Mean color of a region, one rational per channel (models the Python
float triples). -/
structure RGB where
  r : ℚ
  g : ℚ
  b : ℚ
deriving DecidableEq

/-- The six canonical calibration colors (keys of `COLOR_WAVELENGTHS`). -/
inductive ColorName where
  | red
  | yellow
  | green
  | cyan
  | blue
  | magenta
deriving DecidableEq

/-- Reference wavelength in nm for each color
(`SpectralProcessor.COLOR_WAVELENGTHS`). -/
def COLOR_WAVELENGTHS : ColorName → ℚ
  | .red => 625
  | .yellow => 580
  | .green => 530
  | .cyan => 490
  | .blue => 460
  | .magenta => 570

/-- The colors in the iteration order of the `COLOR_WAVELENGTHS` dict. -/
def allColors : List ColorName :=
  [.red, .yellow, .green, .cyan, .blue, .magenta]

/-- One detected color region: its table wavelength and the mean RGB of
the detected contour (the centroid, area and bounding box fields of the
Python dict play no role in any claim and are omitted). -/
structure ColorRegion where
  wavelength : ℚ
  rgb : RGB
deriving DecidableEq

/-- Result of `load_image` plus the pixel-level measurements that the
OpenCV calls would produce: for each canonical color, `detect` yields the
mean RGB of the largest valid mask component when the color is found
(`extract_color_regions` lines 103-144), and the four fields
`top_left` .. `bottom_right` are the mean RGB of the four 10%-sized corner
rectangles (`extract_black_corners`). -/
structure LoadedImage where
  width : ℕ
  height : ℕ
  detect : ColorName → Option RGB
  top_left : RGB
  top_right : RGB
  bottom_left : RGB
  bottom_right : RGB

/-- `extract_color_regions`: iterate the `COLOR_WAVELENGTHS` dict in order
and record a `ColorRegion` (with the table wavelength) for each color the
detector finds.  Models the population of `self.color_regions`. -/
def extract_color_regions (img : LoadedImage) : List (ColorName × ColorRegion) :=
  allColors.filterMap fun c =>
    (img.detect c).map fun rgb => (c, ColorRegion.mk (COLOR_WAVELENGTHS c) rgb)

/-- `extract_black_corners`: the four corner samples in the source dict
order top_left, top_right, bottom_left, bottom_right (`self.black_regions`). -/
def black_regions (img : LoadedImage) : List RGB :=
  [img.top_left, img.top_right, img.bottom_left, img.bottom_right]

/-- Arithmetic mean of a list of rationals (models `np.mean`). -/
def qmean (l : List ℚ) : ℚ := l.sum / l.length

/-- `calculate_baseline`: per-channel mean over the black corner samples. -/
def calculate_baseline (black : List RGB) : RGB :=
  RGB.mk (qmean (black.map RGB.r)) (qmean (black.map RGB.g)) (qmean (black.map RGB.b))

/-- One entry of `self.raw_intensities` / `self.corrected_intensities`:
per-channel value plus the color name stored alongside. -/
structure Intensity where
  r : ℚ
  g : ℚ
  b : ℚ
  color : ColorName
deriving DecidableEq

/-- The `self.raw_intensities` dict built inside `perform_shadow_correction`
(raw region means keyed by wavelength). -/
def raw_intensities (regions : List (ColorName × ColorRegion)) : List (ℚ × Intensity) :=
  regions.map fun p => (p.2.wavelength, Intensity.mk p.2.rgb.r p.2.rgb.g p.2.rgb.b p.1)

/-- `perform_shadow_correction`: subtract the per-channel baseline from each
region mean, clamping at zero (`max(0, rgb - baseline)`), keyed by
wavelength.  The source raises no exception here: with no color regions the
loop body never runs and the result is the empty dict. -/
def perform_shadow_correction (regions : List (ColorName × ColorRegion))
    (black : List RGB) : List (ℚ × Intensity) :=
  let bl := calculate_baseline black
  regions.map fun p =>
    (p.2.wavelength,
     Intensity.mk (max 0 (p.2.rgb.r - bl.r)) (max 0 (p.2.rgb.g - bl.g))
       (max 0 (p.2.rgb.b - bl.b)) p.1)

/-- Built-in red-channel reference (`fit_correction_curves` lines 319-326). -/
def r_ref (wl : ℚ) : ℚ :=
  if 580 ≤ wl then 1
  else if 530 ≤ wl then 3/10
  else if 490 ≤ wl then 1/10
  else 1/5

/-- Built-in green-channel reference (`fit_correction_curves` lines 329-336);
note the exact equality test `wl == 530` for the peak. -/
def g_ref (wl : ℚ) : ℚ :=
  if wl = 530 then 1
  else if wl = 490 ∨ wl = 570 ∨ wl = 580 then 3/5
  else if wl = 625 then 1/5
  else 3/10

/-- Built-in blue-channel reference (`fit_correction_curves` lines 339-346). -/
def b_ref (wl : ℚ) : ℚ :=
  if wl ≤ 490 then 1
  else if wl = 530 then 2/5
  else if wl = 570 ∨ wl = 580 then 3/10
  else 1/10

/-- First-match association-list lookup, modelling Python dict access on a
dict with distinct keys. -/
def lookupWl {α : Type} : List (ℚ × α) → ℚ → Option α
  | [], _ => none
  | (k, v) :: rest, key => if k = key then some v else lookupWl rest key

/-- Reference triple used for a wavelength.  The source gates the caller
table with Python truthiness (`if reference_data:` at line 309), so both
`None` and an empty supplied dict fall back to regenerating the built-in
step table; a nonempty table is looked up with default
`{'r': 1.0, 'g': 1.0, 'b': 1.0}` when the wavelength is missing
(`reference_data.get(wl, ...)`, line 369). -/
def referenceFor (reference_data : Option (List (ℚ × RGB))) (wl : ℚ) : RGB :=
  match reference_data with
  | some table =>
      if table.isEmpty then RGB.mk (r_ref wl) (g_ref wl) (b_ref wl)
      else (lookupWl table wl).getD (RGB.mk 1 1 1)
  | none => RGB.mk (r_ref wl) (g_ref wl) (b_ref wl)

/-- `MIN_THRESHOLD = 0.01` (line 362). -/
def MIN_THRESHOLD : ℚ := 1/100

/-- Correction factor for one wavelength and channel
(lines 372-379): `reference / max(normalized, 0.01)`, then clipped into
`[0.1, 10.0]` via `max(0.1, min(10.0, x))`. -/
def correctionFactor (ref norm : ℚ) : ℚ :=
  max (1/10) (min 10 (ref / max norm MIN_THRESHOLD))

/-- `max` of a nonempty list (Python built-in `max`); the `[]` case is
unreachable in the source because `fit_correction_curves` guards on a
nonempty intensity dict. -/
def listMax : List ℚ → ℚ
  | [] => 0
  | x :: xs => xs.foldl max x

/-- `min` of a nonempty list (Python built-in `min`); `[]` unreachable as
for `listMax`. -/
def listMin : List ℚ → ℚ
  | [] => 0
  | x :: xs => xs.foldl min x

/-- Insert into a sorted list, keeping order. -/
def insertLe (x : ℚ) : List ℚ → List ℚ
  | [] => [x]
  | y :: ys => if x ≤ y then x :: y :: ys else y :: insertLe x ys

/-- Insertion sort, modelling Python `sorted` on the dict keys. -/
def sortLe : List ℚ → List ℚ
  | [] => []
  | x :: xs => insertLe x (sortLe xs)

/-- `np.polyval`: Horner evaluation with the highest-degree coefficient
first. -/
def polyval (coeffs : List ℚ) (x : ℚ) : ℚ :=
  coeffs.foldl (fun acc c => acc * x + c) 0

/-- 3x3 determinant, rows given as triples. -/
def det3 : ℚ × ℚ × ℚ → ℚ × ℚ × ℚ → ℚ × ℚ × ℚ → ℚ
  | (a, b, c), (d, e, f), (g, h, i) =>
      a * (e * i - f * h) - b * (d * i - f * g) + c * (d * h - e * g)

/-- 4x4 determinant by Laplace expansion along the first row. -/
def det4 : ℚ × ℚ × ℚ × ℚ → ℚ × ℚ × ℚ × ℚ → ℚ × ℚ × ℚ × ℚ → ℚ × ℚ × ℚ × ℚ → ℚ
  | (a, b, c, d), (e, f, g, h), (i, j, k, l), (m, n, o, p) =>
      a * det3 (f, g, h) (j, k, l) (n, o, p)
      - b * det3 (e, g, h) (i, k, l) (m, o, p)
      + c * det3 (e, f, h) (i, j, l) (m, n, p)
      - d * det3 (e, f, g) (i, j, k) (m, n, o)

/-- Power sum of the x-coordinates of a point list. -/
def powSum (pts : List (ℚ × ℚ)) (k : ℕ) : ℚ := (pts.map fun p => p.1 ^ k).sum

/-- Moment sum: sum of `x^k * y` over a point list. -/
def momSum (pts : List (ℚ × ℚ)) (k : ℕ) : ℚ := (pts.map fun p => p.1 ^ k * p.2).sum

/-- Models `np.polyfit(x, y, deg=3)` in exact arithmetic: the degree-3
least-squares fit obtained from the normal equations, solved by Cramer's
rule, returned highest-degree coefficient first as numpy does.  The
zero-determinant fallback is unreachable for at least four distinct
x-values. -/
def polyfit3 (pts : List (ℚ × ℚ)) : List ℚ :=
  let s := powSum pts
  let t := momSum pts
  let d := det4 (s 0, s 1, s 2, s 3) (s 1, s 2, s 3, s 4)
    (s 2, s 3, s 4, s 5) (s 3, s 4, s 5, s 6)
  if d = 0 then [0, 0, 0, 0]
  else
    let a0 := det4 (t 0, s 1, s 2, s 3) (t 1, s 2, s 3, s 4)
      (t 2, s 3, s 4, s 5) (t 3, s 4, s 5, s 6) / d
    let a1 := det4 (s 0, t 0, s 2, s 3) (s 1, t 1, s 3, s 4)
      (s 2, t 2, s 4, s 5) (s 3, t 3, s 5, s 6) / d
    let a2 := det4 (s 0, s 1, t 0, s 3) (s 1, s 2, t 1, s 4)
      (s 2, s 3, t 2, s 5) (s 3, s 4, t 3, s 6) / d
    let a3 := det4 (s 0, s 1, s 2, t 0) (s 1, s 2, s 3, t 1)
      (s 2, s 3, s 4, t 2) (s 3, s 4, s 5, t 3) / d
    [a3, a2, a1, a0]

/-- Per-channel degree-3 polynomial coefficients
(`correction_curves['polynomial']`). -/
structure ChannelCurves where
  r : List ℚ
  g : List ℚ
  b : List ℚ
deriving DecidableEq

/-- `correction_curves['data_points']`. -/
structure DataPoints where
  wavelengths : List ℚ
  r_corrections : List ℚ
  g_corrections : List ℚ
  b_corrections : List ℚ
deriving DecidableEq

/-- `correction_curves['raw_normalized']` and
`correction_curves['final_corrected']`. -/
structure ChannelSeries where
  wavelengths : List ℚ
  r : List ℚ
  g : List ℚ
  b : List ℚ
deriving DecidableEq

/-- The `self.correction_curves` dict built on a successful fit.  The two
cubic smoothing splines are fitted in the source but never stored, so only
their failure condition (fewer data points than spline degree 3 plus one)
is modelled, in `fit_correction_curves`. -/
structure FitResult where
  polynomial : ChannelCurves
  data_points : DataPoints
  raw_normalized : ChannelSeries
  final_corrected : ChannelSeries
  reference_values : List (ℚ × RGB)
deriving DecidableEq

/-- Message of the `ValueError` raised at the top of
`fit_correction_curves` when shadow correction has not run. -/
def shadow_error_message : String := "Must perform shadow correction first"

/-- Models the message of the `ValueError` raised by scipy's
`UnivariateSpline` (degree `k = 3`) when given fewer than four data
points; `np.polyfit` only warns in that situation, so the spline call is
what aborts the `try` block. -/
def spline_error_message : String :=
  "The number of data points must be larger than the spline degree k"

/-- `fit_correction_curves` (lines 281-438).  Input is the
`self.corrected_intensities` dict (wavelength-keyed, distinct keys) and the
optional caller-supplied reference table.  Sorts the wavelengths, extracts
the per-channel series, normalizes by the channel maximum (substituting 1
when the maximum is not positive), computes clipped correction factors
against the reference, the diagnostic final corrected values, and fits the
degree-3 polynomial per channel; raises when the intensity dict is empty or
when fewer than four wavelengths are available for the cubic spline. -/
def fit_correction_curves (intens : List (ℚ × Intensity))
    (reference_data : Option (List (ℚ × RGB))) : Except String FitResult :=
  if intens.isEmpty then Except.error shadow_error_message
  else
    let wavelengths := sortLe (intens.map Prod.fst).dedup
    let valueAt := fun wl => (lookupWl intens wl).getD (Intensity.mk 0 0 0 ColorName.red)
    let r_intensities := wavelengths.map fun wl => (valueAt wl).r
    let g_intensities := wavelengths.map fun wl => (valueAt wl).g
    let b_intensities := wavelengths.map fun wl => (valueAt wl).b
    let max_r := if 0 < listMax r_intensities then listMax r_intensities else 1
    let max_g := if 0 < listMax g_intensities then listMax g_intensities else 1
    let max_b := if 0 < listMax b_intensities then listMax b_intensities else 1
    let r_normalized := r_intensities.map fun v => v / max_r
    let g_normalized := g_intensities.map fun v => v / max_g
    let b_normalized := b_intensities.map fun v => v / max_b
    let r_corrections := (wavelengths.zip r_normalized).map fun p =>
      correctionFactor (referenceFor reference_data p.1).r p.2
    let g_corrections := (wavelengths.zip g_normalized).map fun p =>
      correctionFactor (referenceFor reference_data p.1).g p.2
    let b_corrections := (wavelengths.zip b_normalized).map fun p =>
      correctionFactor (referenceFor reference_data p.1).b p.2
    let r_corrected_final := (r_normalized.zip r_corrections).map fun p => p.1 * p.2
    let g_corrected_final := (g_normalized.zip g_corrections).map fun p => p.1 * p.2
    let b_corrected_final := (b_normalized.zip b_corrections).map fun p => p.1 * p.2
    if wavelengths.length < 4 then Except.error spline_error_message
    else
      Except.ok
        (FitResult.mk
          (ChannelCurves.mk (polyfit3 (wavelengths.zip r_corrections))
            (polyfit3 (wavelengths.zip g_corrections))
            (polyfit3 (wavelengths.zip b_corrections)))
          (DataPoints.mk wavelengths r_corrections g_corrections b_corrections)
          (ChannelSeries.mk wavelengths r_normalized g_normalized b_normalized)
          (ChannelSeries.mk wavelengths r_corrected_final g_corrected_final b_corrected_final)
          (match reference_data with
           | some table =>
               if table.isEmpty then wavelengths.map fun wl => (wl, referenceFor none wl)
               else table
           | none => wavelengths.map fun wl => (wl, referenceFor none wl)))

/-- The channel argument of `apply_correction_to_value` (the source indexes
the curve dict with the strings r, g, b). -/
inductive Channel where
  | r
  | g
  | b
deriving DecidableEq

/-- Select a channel's polynomial coefficients. -/
def ChannelCurves.get : ChannelCurves → Channel → List ℚ
  | cc, .r => cc.r
  | cc, .g => cc.g
  | cc, .b => cc.b

/-- `apply_correction_to_value`: raises when `self.correction_curves` has no
fitted polynomial yet (the dict starts empty); otherwise evaluates the
channel's polynomial at the wavelength and multiplies by the value.  The
method reads processor state but never writes it. -/
def apply_correction_to_value (correction_curves : Option FitResult)
    (wavelength : ℚ) (channel : Channel) (value : ℚ) : Except String ℚ :=
  match correction_curves with
  | none => Except.error "Correction curves not fitted yet"
  | some curves => Except.ok (value * polyval (curves.polynomial.get channel) wavelength)

/-- The result dict of a fully successful `process` run (lines 544-569). -/
structure CalibrationRecord where
  timestamp : String
  width : ℕ
  height : ℕ
  color_regions : List (ColorName × ColorRegion)
  black_corners : List RGB
  baseline : RGB
  raw : List (ℚ × Intensity)
  corrected : List (ℚ × Intensity)
  correction_curves : FitResult
  num_colors_detected : ℕ
  num_black_corners : ℕ
  wavelength_range : ℚ × ℚ
deriving DecidableEq

/-- The three shapes of dict that `process` can return: a failure
(`success: False` with an error message), an analysis-only result
(`success: True`, `mode: analysis_only`, the detected regions and their
count), or a complete calibration record. -/
inductive ProcResult where
  | failure (error : String)
  | analysisOnly (color_regions : List (ColorName × ColorRegion))
      (num_colors_detected : ℕ) (message : String)
  | complete (record : CalibrationRecord)
deriving DecidableEq

/-- The top-level `success` flag of the returned dict. -/
def success : ProcResult → Bool
  | .failure _ => false
  | .analysisOnly _ _ _ => true
  | .complete _ => true

/-- The hard-failure message returned when no colors are detected
(line 526). -/
def no_colors_error : String :=
  "No distinct colors detected. This system looks for red, yellow, green, cyan, blue, or magenta colors. Try taking a photo of a colorful object like a phone case, book cover, or printed color chart."

/-- The tail of `process` once at least four regions are found (lines
529-577): extract the black corners, shadow-correct, fit curves; a fitting
exception is caught and wrapped into a failure dict, otherwise the full
calibration record is assembled.  `now` models `datetime.now().isoformat()`. -/
def full_calibration (image : LoadedImage) (regions : List (ColorName × ColorRegion))
    (now : String) : ProcResult :=
  let black := black_regions image
  let corrected := perform_shadow_correction regions black
  match fit_correction_curves corrected none with
  | Except.error e => ProcResult.failure ("Failed to fit correction curves: " ++ e)
  | Except.ok curves =>
      ProcResult.complete
        (CalibrationRecord.mk now image.width image.height regions black
          (calculate_baseline black) (raw_intensities regions) corrected curves
          regions.length black.length
          (if corrected.isEmpty then (0, 0)
           else (listMin (corrected.map Prod.fst), listMax (corrected.map Prod.fst))))

/-- `process` (lines 483-577).  `none` for the image models a decode
failure in `load_image`.  With a loaded image: a requested force-analysis
run returns the analysis dict when at least one region was found; otherwise
fewer than four regions give the analysis dict (some regions) or the hard
failure (none), and four or more regions run the full calibration tail. -/
def process (img : Option LoadedImage) (force_analysis : Bool) (now : String) : ProcResult :=
  match img with
  | none => ProcResult.failure "Failed to load image"
  | some image =>
    let regions := extract_color_regions image
    if force_analysis = true ∧ 0 < regions.length then
      ProcResult.analysisOnly regions regions.length
        ("Analysis mode: detected " ++ toString regions.length ++ " color region(s)")
    else if regions.length < 4 then
      if 0 < regions.length then
        ProcResult.analysisOnly regions regions.length
          ("Detected " ++ toString regions.length ++
            " color region(s) - insufficient for calibration but available for analysis")
      else ProcResult.failure no_colors_error
    else full_calibration image regions now

/-- The numeric outputs of a run that the idempotence property compares:
detected color regions, baseline, and correction curves (the timestamp and
message strings are excluded). -/
def numeric_outputs : ProcResult →
    Option (List (ColorName × ColorRegion)) × Option RGB × Option FitResult
  | .failure _ => (none, none, none)
  | .analysisOnly regions _ _ => (some regions, none, none)
  | .complete rec => (some rec.color_regions, some rec.baseline, some rec.correction_curves)

/-- A loaded image in which the detector finds no color at all. -/
def img0 : LoadedImage :=
  LoadedImage.mk 100 100 (fun _ => none)
    (RGB.mk 0 0 0) (RGB.mk 0 0 0) (RGB.mk 0 0 0) (RGB.mk 0 0 0)

/-- A loaded image in which only the red patch is detected. -/
def img1 : LoadedImage :=
  LoadedImage.mk 100 100
    (fun c => if c = ColorName.red then some (RGB.mk 200 10 10) else none)
    (RGB.mk 0 0 0) (RGB.mk 0 0 0) (RGB.mk 0 0 0) (RGB.mk 0 0 0)

/-- A loaded image with exactly three detected patches (red, yellow,
green). -/
def img3 : LoadedImage :=
  LoadedImage.mk 100 100
    (fun c => match c with
      | .red => some (RGB.mk 200 10 10)
      | .yellow => some (RGB.mk 210 200 20)
      | .green => some (RGB.mk 15 180 20)
      | _ => none)
    (RGB.mk 2 2 2) (RGB.mk 2 2 2) (RGB.mk 2 2 2) (RGB.mk 2 2 2)

/-- A loaded image with exactly four detected patches (red, yellow, green,
cyan). -/
def img4 : LoadedImage :=
  LoadedImage.mk 100 100
    (fun c => match c with
      | .red => some (RGB.mk 200 10 10)
      | .yellow => some (RGB.mk 210 200 20)
      | .green => some (RGB.mk 15 180 20)
      | .cyan => some (RGB.mk 10 190 200)
      | _ => none)
    (RGB.mk 2 2 2) (RGB.mk 2 2 2) (RGB.mk 2 2 2) (RGB.mk 2 2 2)

/-- Shadow-corrected intensities of the three-patch image: three distinct
wavelengths, too few for the degree-3 fit. -/
def intens3 : List (ℚ × Intensity) :=
  perform_shadow_correction (extract_color_regions img3) (black_regions img3)

/-- A concrete four-wavelength intensity dict for exercising
`fit_correction_curves` directly. -/
def example_intensities : List (ℚ × Intensity) :=
  [(0, Intensity.mk 5 5 5 ColorName.red),
   (1, Intensity.mk 5 5 5 ColorName.yellow),
   (2, Intensity.mk 5 5 5 ColorName.green),
   (3, Intensity.mk 5 5 5 ColorName.cyan)]

/-- A nonempty (hence truthy) caller-supplied reference table whose single
entry misses every wavelength of `example_intensities`. -/
def example_reference : List (ℚ × RGB) := [(99, RGB.mk 1 1 1)]

/-- The fit result on `example_intensities` with the supplied table
`example_reference`: every normalized value is 1, every reference lookup
misses and defaults to 1, every correction factor is 1, and the
least-squares cubic through four constant points is the constant
polynomial 1. -/
def example_fit_result : FitResult :=
  FitResult.mk
    (ChannelCurves.mk [0, 0, 0, 1] [0, 0, 0, 1] [0, 0, 0, 1])
    (DataPoints.mk [0, 1, 2, 3] [1, 1, 1, 1] [1, 1, 1, 1] [1, 1, 1, 1])
    (ChannelSeries.mk [0, 1, 2, 3] [1, 1, 1, 1] [1, 1, 1, 1] [1, 1, 1, 1])
    (ChannelSeries.mk [0, 1, 2, 3] [1, 1, 1, 1] [1, 1, 1, 1] [1, 1, 1, 1])
    example_reference

/-- Length of an ordered insert. -/
theorem length_insertLe (x : ℚ) (l : List ℚ) : (insertLe x l).length = l.length + 1 := by
  induction l with
  | nil => rfl
  | cons y ys ih =>
    by_cases h : x ≤ y
    · simp [insertLe, h]
    · simp [insertLe, h, ih]

/-- Sorting the wavelength keys preserves their number. -/
theorem length_sortLe (l : List ℚ) : (sortLe l).length = l.length := by
  induction l with
  | nil => rfl
  | cons x xs ih => simp [sortLe, length_insertLe, ih]

/-- The six canonical colors are pairwise distinct. -/
theorem allColors_nodup : allColors.Nodup := by decide

/-- The six table wavelengths are pairwise distinct, so the wavelength is a
usable join key. -/
theorem wavelengths_injective : Function.Injective COLOR_WAVELENGTHS := by
  intro c c' h
  cases c <;> cases c' <;> first
    | rfl
    | (exfalso; norm_num [COLOR_WAVELENGTHS] at h)

/-- The detected color names form a subsequence of the canonical six. -/
theorem extract_fst_sublist (img : LoadedImage) :
    ((extract_color_regions img).map Prod.fst).Sublist allColors := by
  have h : ∀ l : List ColorName,
      ((l.filterMap fun c => (img.detect c).map fun rgb =>
        (c, ColorRegion.mk (COLOR_WAVELENGTHS c) rgb)).map Prod.fst).Sublist l := by
    intro l
    induction l with
    | nil => simp
    | cons c rest ih =>
      cases hc : img.detect c with
      | none => simpa [List.filterMap_cons, hc] using List.Sublist.cons c ih
      | some v => simpa [List.filterMap_cons, hc] using List.Sublist.cons₂ c ih
  exact h allColors

/-- Every detected region carries the table wavelength of its color. -/
theorem extract_mem_wavelength (img : LoadedImage) :
    ∀ p ∈ extract_color_regions img, p.2.wavelength = COLOR_WAVELENGTHS p.1 := by
  intro p hp
  simp only [extract_color_regions, List.mem_filterMap] at hp
  obtain ⟨c, _, heq⟩ := hp
  rcases hd : img.detect c with _ | v
  · rw [hd] at heq; simp at heq
  · rw [hd] at heq
    simp only [Option.map_some', Option.some_inj] at heq
    rw [← heq]

/-- The wavelengths of the detected regions are pairwise distinct. -/
theorem extract_wavelength_nodup (img : LoadedImage) :
    ((extract_color_regions img).map fun p => p.2.wavelength).Nodup := by
  have h1 : ((extract_color_regions img).map fun p => p.2.wavelength)
      = ((extract_color_regions img).map Prod.fst).map COLOR_WAVELENGTHS := by
    rw [List.map_map]
    exact List.map_congr_left fun p hp => extract_mem_wavelength img p hp
  rw [h1]
  exact ((allColors_nodup.sublist (extract_fst_sublist img)).map wavelengths_injective)

/-- The keys of the shadow-corrected dict are the region wavelengths. -/
theorem shadow_fst (regions : List (ColorName × ColorRegion)) (black : List RGB) :
    (perform_shadow_correction regions black).map Prod.fst
      = regions.map fun p => p.2.wavelength := by
  simp [perform_shadow_correction, List.map_map, Function.comp]

/-- With a nonempty intensity dict holding at least four distinct
wavelengths, `fit_correction_curves` succeeds. -/
theorem fit_ok_of_four (intens : List (ℚ × Intensity))
    (hne : intens ≠ []) (h4 : 4 ≤ ((intens.map Prod.fst).dedup).length)
    (rd : Option (List (ℚ × RGB))) :
    ∃ res, fit_correction_curves intens rd = Except.ok res := by
  have hemp : intens.isEmpty = false := by simpa using hne
  simp only [fit_correction_curves, hemp, Bool.false_eq_true, if_false, length_sortLe]
  rw [if_neg (by omega)]
  exact ⟨_, rfl⟩

/-- Every correction factor lies in the clipped range. -/
theorem correctionFactor_bounds (ref norm : ℚ) :
    1/10 ≤ correctionFactor ref norm ∧ correctionFactor ref norm ≤ 10 :=
  ⟨le_max_left _ _, max_le (by norm_num) (min_le_left _ _)⟩

/-- Claim C1: in full mode (no force-analysis), the pipeline outcome is
determined by the number of detected color regions: zero regions is a hard
failure (success false), one to three regions give a successful
analysis-only result exposing the detected regions, and four or more
regions (boundary inclusive at four) run corner extraction, shadow
correction and curve fitting to completion. -/
theorem color_count_determines_outcome (img : LoadedImage) (now : String) :
    ((extract_color_regions img).length = 0 →
      process (some img) false now = ProcResult.failure no_colors_error ∧
        success (process (some img) false now) = false) ∧
    (0 < (extract_color_regions img).length → (extract_color_regions img).length ≤ 3 →
      ∃ msg, process (some img) false now
          = ProcResult.analysisOnly (extract_color_regions img)
              (extract_color_regions img).length msg ∧
        success (process (some img) false now) = true) ∧
    (4 ≤ (extract_color_regions img).length →
      ∃ rec, process (some img) false now = ProcResult.complete rec ∧
        rec.num_colors_detected = (extract_color_regions img).length) := by
  refine ⟨?_, ?_, ?_⟩
  · intro h0
    simp only [process]
    rw [if_neg (by simp), if_pos (by omega), if_neg (by omega)]
    exact ⟨rfl, rfl⟩
  · intro hpos hle
    simp only [process]
    rw [if_neg (by simp), if_pos (by omega), if_pos hpos]
    exact ⟨_, rfl, rfl⟩
  · intro h4
    have hne : extract_color_regions img ≠ [] := by
      intro h
      rw [h] at h4
      simp at h4
    have hkeys : (((perform_shadow_correction (extract_color_regions img)
        (black_regions img)).map Prod.fst).dedup).length
        = (extract_color_regions img).length := by
      rw [shadow_fst, List.dedup_eq_self.mpr (extract_wavelength_nodup img), List.length_map]
    have hne2 : perform_shadow_correction (extract_color_regions img) (black_regions img) ≠ [] := by
      intro hcontra
      exact hne (by simpa [perform_shadow_correction] using hcontra)
    obtain ⟨res, hres⟩ := fit_ok_of_four _ hne2 (by rw [hkeys]; exact h4) none
    simp only [process]
    rw [if_neg (by simp), if_neg (by omega)]
    simp only [full_calibration]
    rw [hres]
    exact ⟨_, rfl, rfl⟩

/-- Witness for C1 at three concrete images with zero, one and four
detected regions. -/
theorem color_count_determines_outcome_witness :
    (process (some img0) false "t" = ProcResult.failure no_colors_error ∧
      success (process (some img0) false "t") = false) ∧
    (∃ msg, process (some img1) false "t"
        = ProcResult.analysisOnly (extract_color_regions img1)
            (extract_color_regions img1).length msg ∧
      success (process (some img1) false "t") = true) ∧
    (∃ rec, process (some img4) false "t" = ProcResult.complete rec ∧
      rec.num_colors_detected = (extract_color_regions img4).length) :=
  ⟨(color_count_determines_outcome img0 "t").1
      (by simp [extract_color_regions, allColors, img0]),
   (color_count_determines_outcome img1 "t").2.1
      (by simp [extract_color_regions, allColors, img1])
      (by simp [extract_color_regions, allColors, img1]),
   (color_count_determines_outcome img4 "t").2.2
      (by simp [extract_color_regions, allColors, img4, List.filterMap_cons])⟩

/-- Claim C2: each correction factor is reference divided by
`max(normalized, 0.01)` and then clipped to `[0.1, 10.0]`; every factor
stored by a successful fit lies in that interval, and a normalized value of
zero divides by the floor `0.01`, never by zero itself. -/
theorem correction_factor_clipped :
    (∀ ref norm : ℚ,
      correctionFactor ref norm = max (1/10) (min 10 (ref / max norm (1/100))) ∧
      1/10 ≤ correctionFactor ref norm ∧ correctionFactor ref norm ≤ 10) ∧
    (∀ ref : ℚ, correctionFactor ref 0 = max (1/10) (min 10 (ref / (1/100)))) ∧
    (∀ (intens : List (ℚ × Intensity)) (rd : Option (List (ℚ × RGB))) (res : FitResult),
      fit_correction_curves intens rd = Except.ok res →
      ∀ c ∈ res.data_points.r_corrections ++ res.data_points.g_corrections
          ++ res.data_points.b_corrections,
        1/10 ≤ c ∧ c ≤ 10) := by
  refine ⟨?_, ?_, ?_⟩
  · intro ref norm
    exact ⟨by simp [correctionFactor, MIN_THRESHOLD],
      (correctionFactor_bounds ref norm).1, (correctionFactor_bounds ref norm).2⟩
  · intro ref
    have h : max (0 : ℚ) (1/100) = 1/100 := by norm_num
    simp [correctionFactor, MIN_THRESHOLD, h]
  · intro intens rd res h c hc
    simp only [fit_correction_curves] at h
    split at h
    · exact absurd h (by simp)
    · split at h
      · exact absurd h (by simp)
      · rw [Except.ok.injEq] at h
        subst h
        simp only [List.mem_append, List.mem_map] at hc
        rcases hc with (⟨p, _, rfl⟩ | ⟨p, _, rfl⟩) | ⟨p, _, rfl⟩ <;>
          exact correctionFactor_bounds _ _

/-- Witness for C2: a concrete successful fit whose stored factor 1 is in
range. -/
theorem correction_factor_clipped_witness :
    fit_correction_curves example_intensities (some example_reference)
      = Except.ok example_fit_result ∧
    (1 : ℚ) ∈ example_fit_result.data_points.r_corrections ++
      example_fit_result.data_points.g_corrections ++
      example_fit_result.data_points.b_corrections ∧
    1/10 ≤ (1 : ℚ) ∧ (1 : ℚ) ≤ 10 := by
  have hfit : fit_correction_curves example_intensities (some example_reference)
      = Except.ok example_fit_result := by
    norm_num [example_intensities, example_reference, example_fit_result,
      fit_correction_curves, sortLe, insertLe,
      List.dedup_cons_of_not_mem, lookupWl, listMax, referenceFor, correctionFactor,
      MIN_THRESHOLD, polyfit3, powSum, momSum, det4, det3]
  have hmem : (1 : ℚ) ∈ example_fit_result.data_points.r_corrections ++
      example_fit_result.data_points.g_corrections ++
      example_fit_result.data_points.b_corrections := by
    simp [example_fit_result]
  have hb := correction_factor_clipped.2.2 example_intensities (some example_reference)
    example_fit_result hfit 1 hmem
  exact ⟨hfit, hmem, hb.1, hb.2⟩

/-- Claim C3: the baseline is the per-channel arithmetic mean of the four
corner samples; every shadow-corrected intensity is
`max(0, raw - baseline)` per channel, hence nonnegative, and a region whose
raw mean equals the baseline is corrected to exactly zero. -/
theorem shadow_correction_formula (regions : List (ColorName × ColorRegion))
    (c1 c2 c3 c4 : RGB) :
    (calculate_baseline [c1, c2, c3, c4]
        = RGB.mk ((c1.r + c2.r + c3.r + c4.r) / 4) ((c1.g + c2.g + c3.g + c4.g) / 4)
            ((c1.b + c2.b + c3.b + c4.b) / 4)) ∧
    (∀ nm reg, (nm, reg) ∈ regions →
      (reg.wavelength,
        Intensity.mk (max 0 (reg.rgb.r - (calculate_baseline [c1, c2, c3, c4]).r))
          (max 0 (reg.rgb.g - (calculate_baseline [c1, c2, c3, c4]).g))
          (max 0 (reg.rgb.b - (calculate_baseline [c1, c2, c3, c4]).b)) nm)
        ∈ perform_shadow_correction regions [c1, c2, c3, c4]) ∧
    (∀ p ∈ perform_shadow_correction regions [c1, c2, c3, c4],
      0 ≤ p.2.r ∧ 0 ≤ p.2.g ∧ 0 ≤ p.2.b) ∧
    (∀ nm reg, (nm, reg) ∈ regions → reg.rgb = calculate_baseline [c1, c2, c3, c4] →
      (reg.wavelength, Intensity.mk 0 0 0 nm)
        ∈ perform_shadow_correction regions [c1, c2, c3, c4]) := by
  refine ⟨?_, ?_, ?_, ?_⟩
  · simp only [calculate_baseline, qmean, List.map_cons, List.map_nil, List.sum_cons,
      List.sum_nil, List.length_cons, List.length_nil]
    norm_num
    constructor
    · ring
    constructor
    · ring
    · ring
  · intro nm reg h
    have hm := List.mem_map_of_mem (fun p : ColorName × ColorRegion =>
      (p.2.wavelength,
        Intensity.mk (max 0 (p.2.rgb.r - (calculate_baseline [c1, c2, c3, c4]).r))
          (max 0 (p.2.rgb.g - (calculate_baseline [c1, c2, c3, c4]).g))
          (max 0 (p.2.rgb.b - (calculate_baseline [c1, c2, c3, c4]).b)) p.1)) h
    simp only [perform_shadow_correction]
    exact hm
  · intro p hp
    simp only [perform_shadow_correction, List.mem_map] at hp
    obtain ⟨q, _, rfl⟩ := hp
    exact ⟨le_max_left _ _, le_max_left _ _, le_max_left _ _⟩
  · intro nm reg h hbl
    have := List.mem_map_of_mem (fun p : ColorName × ColorRegion =>
      (p.2.wavelength,
        Intensity.mk (max 0 (p.2.rgb.r - (calculate_baseline [c1, c2, c3, c4]).r))
          (max 0 (p.2.rgb.g - (calculate_baseline [c1, c2, c3, c4]).g))
          (max 0 (p.2.rgb.b - (calculate_baseline [c1, c2, c3, c4]).b)) p.1)) h
    simp only [hbl, sub_self, max_self] at this
    simpa [perform_shadow_correction, hbl] using this

/-- Witness for C3: one region whose raw mean equals the corner baseline is
corrected to zero. -/
theorem shadow_correction_formula_witness :
    (ColorName.red, ColorRegion.mk 625 (RGB.mk 10 20 30))
      ∈ [(ColorName.red, ColorRegion.mk 625 (RGB.mk 10 20 30))] ∧
    ((625 : ℚ), Intensity.mk 0 0 0 ColorName.red)
      ∈ perform_shadow_correction [(ColorName.red, ColorRegion.mk 625 (RGB.mk 10 20 30))]
          [RGB.mk 10 20 30, RGB.mk 10 20 30, RGB.mk 10 20 30, RGB.mk 10 20 30] :=
  ⟨List.mem_singleton.mpr rfl,
   (shadow_correction_formula [(ColorName.red, ColorRegion.mk 625 (RGB.mk 10 20 30))]
      (RGB.mk 10 20 30) (RGB.mk 10 20 30) (RGB.mk 10 20 30) (RGB.mk 10 20 30)).2.2.2
     ColorName.red (ColorRegion.mk 625 (RGB.mk 10 20 30)) (List.mem_singleton.mpr rfl)
     (by norm_num [calculate_baseline, qmean])⟩

/-- Claim C4: the built-in red-channel reference is the documented step
function of wavelength (1.0 at and above 580, 0.3 on [530, 580), 0.1 on
[490, 530), 0.2 below 490), and the green channel is 1.0 exactly at
wavelength 530 and only there. -/
theorem builtin_reference_step (wl : ℚ) :
    (580 ≤ wl → r_ref wl = 1) ∧
    (530 ≤ wl → wl < 580 → r_ref wl = 3/10) ∧
    (490 ≤ wl → wl < 530 → r_ref wl = 1/10) ∧
    (wl < 490 → r_ref wl = 1/5) ∧
    (g_ref wl = 1 ↔ wl = 530) := by
  refine ⟨?_, ?_, ?_, ?_, ?_⟩
  · intro h
    simp [r_ref, h]
  · intro h1 h2
    unfold r_ref
    rw [if_neg (by linarith), if_pos h1]
  · intro h1 h2
    unfold r_ref
    rw [if_neg (by linarith), if_neg (by linarith), if_pos h1]
  · intro h
    unfold r_ref
    rw [if_neg (by linarith), if_neg (by linarith), if_neg (by linarith)]
  · constructor
    · intro h
      unfold g_ref at h
      split_ifs at h with h1 h2 h3
      · exact h1
      · exact absurd h (by norm_num)
      · exact absurd h (by norm_num)
      · exact absurd h (by norm_num)
    · intro h
      simp [g_ref, h]

/-- Witness for C4 at concrete wavelengths in each band. -/
theorem builtin_reference_step_witness :
    r_ref 625 = 1 ∧ r_ref 550 = 3/10 ∧ r_ref 500 = 1/10 ∧ r_ref 480 = 1/5 ∧
    g_ref 530 = 1 :=
  ⟨(builtin_reference_step 625).1 (by norm_num),
   (builtin_reference_step 550).2.1 (by norm_num) (by norm_num),
   (builtin_reference_step 500).2.2.1 (by norm_num) (by norm_num),
   (builtin_reference_step 480).2.2.2.1 (by norm_num),
   (builtin_reference_step 530).2.2.2.2.mpr rfl⟩

/-- Claim C5: fewer than four distinct wavelengths make
`fit_correction_curves` fail with an error rather than fit a degraded
curve, and the full-calibration tail wraps any fitting error into a failure
dict carrying the underlying message. -/
theorem fitting_requires_four_wavelengths :
    (∀ (intens : List (ℚ × Intensity)) (rd : Option (List (ℚ × RGB))),
      ((intens.map Prod.fst).dedup).length < 4 →
      ∃ e, fit_correction_curves intens rd = Except.error e) ∧
    (∀ (image : LoadedImage) (regions : List (ColorName × ColorRegion))
        (now : String) (e : String),
      fit_correction_curves (perform_shadow_correction regions (black_regions image)) none
        = Except.error e →
      full_calibration image regions now
        = ProcResult.failure ("Failed to fit correction curves: " ++ e)) := by
  constructor
  · intro intens rd h4
    by_cases hemp : intens.isEmpty = true
    · exact ⟨shadow_error_message, by rw [fit_correction_curves, if_pos hemp]⟩
    · refine ⟨spline_error_message, ?_⟩
      rw [fit_correction_curves, if_neg hemp]
      simp only [length_sortLe]
      rw [if_pos h4]
  · intro image regions now e hfit
    simp only [full_calibration]
    rw [hfit]

/-- Witness for C5: the three-patch image yields three distinct
wavelengths, the fit fails, and the full-calibration tail reports the
wrapped failure. -/
theorem fitting_requires_four_wavelengths_witness :
    ((intens3.map Prod.fst).dedup).length < 4 ∧
    (∃ e, fit_correction_curves intens3 none = Except.error e) ∧
    full_calibration img3 (extract_color_regions img3) "t"
      = ProcResult.failure ("Failed to fit correction curves: " ++ spline_error_message) := by
  have hlit : intens3 =
      [(625, Intensity.mk 198 8 8 ColorName.red),
       (580, Intensity.mk 208 198 18 ColorName.yellow),
       (530, Intensity.mk 13 178 18 ColorName.green)] := by
    have h : extract_color_regions img3 =
        [(ColorName.red, ColorRegion.mk 625 (RGB.mk 200 10 10)),
         (ColorName.yellow, ColorRegion.mk 580 (RGB.mk 210 200 20)),
         (ColorName.green, ColorRegion.mk 530 (RGB.mk 15 180 20))] := by
      simp [extract_color_regions, allColors, img3, COLOR_WAVELENGTHS, List.filterMap_cons]
    rw [intens3, h]
    norm_num [perform_shadow_correction, black_regions, img3, calculate_baseline, qmean]
  have hcount : ((intens3.map Prod.fst).dedup).length < 4 := by
    rw [hlit]
    norm_num [List.dedup_cons_of_not_mem]
  have hfit : fit_correction_curves intens3 none = Except.error spline_error_message := by
    rw [hlit]
    norm_num [fit_correction_curves, sortLe, insertLe, List.dedup_cons_of_not_mem]
  exact ⟨hcount, fitting_requires_four_wavelengths.1 intens3 none hcount,
    fitting_requires_four_wavelengths.2 img3 (extract_color_regions img3) "t"
      spline_error_message hfit⟩

/-- Counterexample to C6 as stated: with force-analysis requested but zero
regions detected, `process` returns the hard no-colors failure, not an
analysis-only result (the source guards the force branch with
`len(self.color_regions) > 0`). -/
theorem force_analysis_claim_counterexample :
    process (some img0) true "t" = ProcResult.failure no_colors_error ∧
    success (process (some img0) true "t") = false := by
  constructor
  · simp [process, extract_color_regions, allColors, img0]
  · simp [process, extract_color_regions, allColors, img0, success]

/-- Claim C6 (amended): when force-analysis is requested and at least one
region was detected, `process` returns the analysis-only result with the
detected regions and their count, even with four or more regions; with zero
regions it returns the hard failure; and a force-analysis run never reaches
the full-calibration record (no corner extraction, shadow correction or
curve fitting). -/
theorem force_analysis_behavior (img : LoadedImage) (now : String) :
    (0 < (extract_color_regions img).length →
      process (some img) true now
        = ProcResult.analysisOnly (extract_color_regions img)
            (extract_color_regions img).length
            ("Analysis mode: detected " ++ toString (extract_color_regions img).length
              ++ " color region(s)")) ∧
    ((extract_color_regions img).length = 0 →
      process (some img) true now = ProcResult.failure no_colors_error) ∧
    (∀ rec, process (some img) true now ≠ ProcResult.complete rec) := by
  refine ⟨?_, ?_, ?_⟩
  · intro h
    simp only [process]
    rw [if_pos ⟨trivial, h⟩]
  · intro h
    simp only [process]
    rw [if_neg (by simp [h]), if_pos (by omega), if_neg (by omega)]
  · intro rec
    simp only [process]
    by_cases h : 0 < (extract_color_regions img).length
    · rw [if_pos ⟨trivial, h⟩]
      simp
    · rw [if_neg (by simp [h]), if_pos (by omega), if_neg h]
      simp

/-- Witness for C6 (amended) at a one-region image and a zero-region
image. -/
theorem force_analysis_behavior_witness :
    process (some img1) true "t"
      = ProcResult.analysisOnly (extract_color_regions img1)
          (extract_color_regions img1).length
          ("Analysis mode: detected " ++ toString (extract_color_regions img1).length
            ++ " color region(s)") ∧
    process (some img0) true "t" = ProcResult.failure no_colors_error :=
  ⟨(force_analysis_behavior img1 "t").1
      (by simp [extract_color_regions, allColors, img1]),
   (force_analysis_behavior img0 "t").2.1
      (by simp [extract_color_regions, allColors, img0])⟩

/-- Counterexample to C7 as stated: with no detected color regions (and the
corner samples present), `perform_shadow_correction` returns the empty
intensity dict instead of failing: the source method contains no
initialization check. -/
theorem shadow_correction_no_init_check :
    perform_shadow_correction [] (black_regions img0) = [] := rfl

/-- Claim C7 (amended): `perform_shadow_correction` itself performs no
initialization check and returns an empty result when no regions were
detected; the "must perform shadow correction first" uninitialized-state
error is raised by `fit_correction_curves` when the corrected-intensity
dict is empty. -/
theorem uninitialized_state_error_location :
    (∀ black : List RGB, perform_shadow_correction [] black = []) ∧
    (∀ rd : Option (List (ℚ × RGB)),
      fit_correction_curves [] rd = Except.error shadow_error_message) :=
  ⟨fun _ => rfl, fun _ => rfl⟩

/-- Claim C8: `apply_correction_to_value` raises exactly when no curves
have been fitted; with fitted curves it is the pure function multiplying
the value by the channel polynomial evaluated at the wavelength (the model
takes the processor state as an explicit argument and returns only a value,
so statelessness is by construction). -/
theorem apply_correction_pure :
    (∀ (wl : ℚ) (ch : Channel) (v : ℚ),
      apply_correction_to_value none wl ch v
        = Except.error "Correction curves not fitted yet") ∧
    (∀ (curves : FitResult) (wl : ℚ) (ch : Channel) (v : ℚ),
      apply_correction_to_value (some curves) wl ch v
        = Except.ok (v * polyval (curves.polynomial.get ch) wl)) :=
  ⟨fun _ _ _ => rfl, fun _ _ _ _ => rfl⟩

/-- Claim C9: the numeric outputs of a run (detected regions, baseline,
correction curves) do not depend on the wall-clock timestamp, the only
external input of `process` beyond the image bytes; two runs on the same
loaded image agree on all numeric outputs. -/
theorem pipeline_deterministic (img : Option LoadedImage) (fa : Bool) (t1 t2 : String) :
    numeric_outputs (process img fa t1) = numeric_outputs (process img fa t2) := by
  cases img with
  | none => rfl
  | some image =>
    simp only [process]
    split_ifs <;> try rfl
    simp only [full_calibration]
    rcases hfit : fit_correction_curves
        (perform_shadow_correction (extract_color_regions image) (black_regions image))
        none with e | res <;>
      simp [hfit, numeric_outputs]

/-- Counterexample to C10 as stated: an empty caller-supplied reference
dict contains no entry for any detected wavelength, yet the fitter does not
substitute 1.0 there: the `if reference_data:` truthiness check (line 309)
treats the empty dict as absent and regenerates the built-in step table, so
at 500 nm the reference is the built-in (0.1, 0.3, 0.1) rather than
(1, 1, 1), and a fit given the empty table coincides with the
no-reference-data fit. -/
theorem missing_reference_claim_counterexample :
    referenceFor (some ([] : List (ℚ × RGB))) 500 = RGB.mk (1/10) (3/10) (1/10) ∧
    referenceFor (some ([] : List (ℚ × RGB))) 500 ≠ RGB.mk 1 1 1 ∧
    fit_correction_curves example_intensities (some [])
      = fit_correction_curves example_intensities none := by
  refine ⟨?_, ?_, rfl⟩
  · norm_num [referenceFor, r_ref, g_ref, b_ref]
  · norm_num [referenceFor, r_ref, g_ref, b_ref, RGB.mk.injEq]

/-- Claim C10 (amended): when a nonempty caller-supplied reference table
misses a detected wavelength, the fitter silently substitutes the reference
1.0 per channel (so the factor is `clip(1.0 / max(normalized, 0.01))`)
rather than raising; an empty supplied dict is falsy under the
`if reference_data:` check and behaves exactly like no reference data (the
built-in step table is regenerated); and a missing reference entry never
makes the fit fail: the only error cases are the empty intensity dict and
fewer than four distinct wavelengths. -/
theorem missing_reference_defaults :
    (∀ (table : List (ℚ × RGB)) (wl : ℚ), table ≠ [] → lookupWl table wl = none →
      referenceFor (some table) wl = RGB.mk 1 1 1) ∧
    (∀ norm : ℚ, correctionFactor 1 norm = max (1/10) (min 10 (1 / max norm (1/100)))) ∧
    (∀ intens : List (ℚ × Intensity),
      fit_correction_curves intens (some []) = fit_correction_curves intens none) ∧
    (∀ (intens : List (ℚ × Intensity)) (rd : Option (List (ℚ × RGB))) (e : String),
      fit_correction_curves intens rd = Except.error e →
      intens = [] ∨ ((intens.map Prod.fst).dedup).length < 4) := by
  refine ⟨?_, ?_, ?_, ?_⟩
  · intro table wl hne h
    have hemp : table.isEmpty = false := by simpa using hne
    simp [referenceFor, hemp, h]
  · intro norm
    simp [correctionFactor, MIN_THRESHOLD]
  · intro intens
    rfl
  · intro intens rd e h
    simp only [fit_correction_curves] at h
    split at h
    · left
      simp_all [List.isEmpty_iff]
    · rw [length_sortLe] at h
      split at h
      · right
        assumption
      · exact absurd h (by simp)

/-- Witness for C10 (amended): the nonempty table `example_reference`
misses wavelength 500 and defaults to reference 1.0 per channel, and a
concrete fit error comes from too few wavelengths, not from missing
references. -/
theorem missing_reference_defaults_witness :
    example_reference ≠ [] ∧
    lookupWl example_reference 500 = none ∧
    referenceFor (some example_reference) 500 = RGB.mk 1 1 1 ∧
    (intens3 = [] ∨ ((intens3.map Prod.fst).dedup).length < 4) := by
  have hlit : intens3 =
      [(625, Intensity.mk 198 8 8 ColorName.red),
       (580, Intensity.mk 208 198 18 ColorName.yellow),
       (530, Intensity.mk 13 178 18 ColorName.green)] := by
    have h : extract_color_regions img3 =
        [(ColorName.red, ColorRegion.mk 625 (RGB.mk 200 10 10)),
         (ColorName.yellow, ColorRegion.mk 580 (RGB.mk 210 200 20)),
         (ColorName.green, ColorRegion.mk 530 (RGB.mk 15 180 20))] := by
      simp [extract_color_regions, allColors, img3, COLOR_WAVELENGTHS, List.filterMap_cons]
    rw [intens3, h]
    norm_num [perform_shadow_correction, black_regions, img3, calculate_baseline, qmean]
  have hfit : fit_correction_curves intens3 none = Except.error spline_error_message := by
    rw [hlit]
    norm_num [fit_correction_curves, sortLe, insertLe, List.dedup_cons_of_not_mem]
  have hlk : lookupWl example_reference 500 = none := by
    norm_num [example_reference, lookupWl]
  exact ⟨by simp [example_reference], hlk,
    missing_reference_defaults.1 example_reference 500 (by simp [example_reference]) hlk,
    missing_reference_defaults.2.2.2 intens3 none spline_error_message hfit⟩

end SpectralProcessor
